/-
  Verification of kismap.py (Liz4rd04/kismap) against its natural-language
  specification.

  Shallow embedding: SQLite numeric values (REAL / INTEGER columns) are
  modelled as rationals or integers; Python's division is true division,
  which on the values involved is exact rational division.  Python
  truthiness is modelled explicitly where the source relies on it (0,
  None, the empty string and the empty list are falsy).  The argparse
  append options are None or a non-empty list in Python; both are
  modelled as a List String, with the empty list for "not given", which
  coincides with the source's truthiness tests.  The JSON device blob is
  modelled as its decoded shape (json.loads is a library call); the
  nested dict lookups with default of the source become matching on
  Options.
-/
import Mathlib

namespace Kismap

/-! ## Core pure functions (kismap.py lines 42-69) -/

/-- Band classification from kismap.py 42-62 (`get_band`): determine the
WiFi band from a frequency that may be expressed in kHz, MHz or GHz. -/
def get_band (frequency : ℚ) : String :=
  if frequency ≤ 0 then "unknown"
  else
    let freq_mhz : ℚ :=
      if frequency > 100000 then frequency / 1000
      else if frequency > 100 then frequency
      else frequency * 1000
    if 2400 ≤ freq_mhz ∧ freq_mhz ≤ 2500 then "2.4"
    else if 5150 ≤ freq_mhz ∧ freq_mhz ≤ 5895 then "5"
    else if 5925 ≤ freq_mhz ∧ freq_mhz ≤ 7125 then "6"
    else "unknown"

/-- Signal normalization from kismap.py 64-69 (`signal_to_weight`):
linear normalization of a dBm signal value to a heatmap weight, clamped
to the interval from 1/10 to 1. -/
def signal_to_weight (signal_dbm : ℚ) : ℚ :=
  let min_signal : ℚ := -95
  let max_signal : ℚ := -30
  let normalized := (signal_dbm - min_signal) / (max_signal - min_signal)
  max (1/10) (min 1 normalized)

/-- Python's substring test `needle in hay` on strings. -/
def strContains (hay needle : String) : Bool :=
  hay.data.tails.any (fun t => needle.data.isPrefixOf t)

/-! ## Data model: database rows, CLI arguments, packet records -/

/-- Decoded shape of the `device` JSON blob, as far as `load_kismet_data`
(kismap.py 93-105) inspects it: the last-beaconed-ssid string, when every
key on the path to it is present. -/
structure DeviceBlob where
  dot11_last_beaconed_ssid : Option String
  deriving DecidableEq

/-- Row of the `devices` table (columns read at kismap.py 79-83).  A
`device` of `none` models both a NULL blob and a blob that fails to
decode as JSON. -/
structure DeviceRow where
  devmac : String
  type : Option String
  strongest_signal : Int
  avg_lat : ℚ
  avg_lon : ℚ
  device : Option DeviceBlob
  deriving DecidableEq

/-- Row of the `packets` table (columns read at kismap.py 108-113). -/
structure PacketRow where
  lat : ℚ
  lon : ℚ
  signal : Int
  frequency : ℚ
  sourcemac : String
  destmac : String
  ts_sec : Int
  deriving DecidableEq

/-- Kismet SQLite database: the two tables `load_kismet_data` reads. -/
structure Db where
  devices : List DeviceRow
  packets : List PacketRow
  deriving DecidableEq

/-- CLI arguments that `load_kismet_data` consults (kismap.py 272-283).
The append options are the empty list when not given; `min_signal`
defaults to -100. -/
structure Args where
  band : List String
  min_signal : Int
  type : List String
  essid : List String
  mac : List String
  all_devices : Bool
  deriving DecidableEq

/-- Packet record as built by `load_kismet_data` (kismap.py 118-134). -/
structure Packet where
  lat : ℚ
  lon : ℚ
  signal : Int
  frequency : ℚ
  mac : String
  timestamp : Int
  band : String
  ssid : Option String
  type : Option String
  deriving DecidableEq

/-- SSID extraction from the device blob (kismap.py 94-103): the nested
lookup chain, with the final truthiness test treating the empty string
as absent. -/
def extractSsid (blob : Option DeviceBlob) : Option String :=
  match blob with
  | none => none
  | some b =>
    match b.dot11_last_beaconed_ssid with
    | none => none
    | some ssid => if ssid = "" then none else some ssid

/-- Value stored in the `devices` dict (kismap.py 86-103). -/
structure DeviceInfo where
  type : Option String
  strongest_signal : Int
  avg_lat : ℚ
  avg_lon : ℚ
  ssid : Option String
  deriving DecidableEq

/-- Conversion of a devices-table row into its dict entry
(kismap.py 86-103). -/
def mkDeviceInfo (r : DeviceRow) : DeviceInfo :=
  { type := r.type
    strongest_signal := r.strongest_signal
    avg_lat := r.avg_lat
    avg_lon := r.avg_lon
    ssid := extractSsid r.device }

/-- Rows produced by the devices query (kismap.py 79-83), which keeps
rows with nonzero average coordinates. -/
def deviceRows (db : Db) : List DeviceRow :=
  db.devices.filter (fun r => r.avg_lat ≠ 0 ∧ r.avg_lon ≠ 0)

/-- Lookup in the `devices` dict built at kismap.py 84-103.  Assignment
in row order means the last row with a given mac wins, hence the search
from the end. -/
def lookupDevice (db : Db) (mac : String) : Option DeviceInfo :=
  ((deviceRows db).reverse.find? (fun r => r.devmac = mac)).map mkDeviceInfo

/-- Rows produced by the packets query (kismap.py 108-113): rows with
nonzero coordinates and nonzero signal, ordered by `ts_sec` (modelled by
a stable sort). -/
def packetRows (db : Db) : List PacketRow :=
  List.insertionSort (fun a b => a.ts_sec ≤ b.ts_sec)
    (db.packets.filter (fun r => r.lat ≠ 0 ∧ r.lon ≠ 0 ∧ r.signal ≠ 0))

/-- Building one packet record (kismap.py 117-134): copy the row fields,
classify the band, and attach ssid and type from the devices dict when
the source mac is known. -/
def mkPacket (db : Db) (row : PacketRow) : Packet :=
  let base : Packet :=
    { lat := row.lat
      lon := row.lon
      signal := row.signal
      frequency := row.frequency
      mac := row.sourcemac
      timestamp := row.ts_sec
      band := get_band row.frequency
      ssid := none
      type := none }
  match lookupDevice db row.sourcemac with
  | some info => { base with ssid := info.ssid, type := info.type }
  | none => base

/-- Python membership `x in lst` where `x` may be None (None is not a
member of a list of strings). -/
def optMem (x : Option String) (lst : List String) : Prop :=
  match x with
  | none => False
  | some s => s ∈ lst

instance (x : Option String) (lst : List String) : Decidable (optMem x lst) := by
  unfold optMem; cases x <;> infer_instance

/-- Python truthiness of the packet's type (kismap.py 147): None and the
empty string are falsy. -/
def typeTruthy (t : Option String) : Prop :=
  match t with
  | none => False
  | some s => s ≠ ""

instance (t : Option String) : Decidable (typeTruthy t) := by
  unfold typeTruthy; cases t <;> infer_instance

/-- Filter chain of `load_kismet_data` (kismap.py 136-148): true iff no
`continue` fires.  Note the Python truthiness tests: an absent append
option is falsy, and `args.min_signal` is falsy exactly when it is 0. -/
def keepPacket (args : Args) (p : Packet) : Bool :=
  if args.band ≠ [] ∧ p.band ∉ args.band then false
  else if args.min_signal ≠ 0 ∧ p.signal < args.min_signal then false
  else if args.type ≠ [] ∧ ¬ optMem p.type args.type then false
  else if args.essid ≠ [] ∧ ¬ optMem p.ssid args.essid then false
  else if args.mac ≠ [] ∧ p.mac ∉ args.mac then false
  else if ¬ args.all_devices ∧ typeTruthy p.type ∧
      ¬ strContains (p.type.getD ("")) ("AP") then false
  else true

/-- Packet list returned by `load_kismet_data` (kismap.py 71-153): build
a record from each row of the packets query and keep those passing the
filter chain. -/
def load_kismet_data (db : Db) (args : Args) : List Packet :=
  ((packetRows db).map (mkPacket db)).filter (keepPacket args)

/-! ## Claim-side definition for the band-classification claim -/

/-- Normalization to MHz as worded by the spec claim: values above
100000 are kHz and divided by 1000, values in the interval from 100
(exclusive) to 100000 are MHz, positive values up to 100 are GHz and
multiplied by 1000. -/
def normalizeFreq (f : ℚ) : ℚ :=
  if f > 100000 then f / 1000 else if f > 100 then f else f * 1000

/-! ## Single-read refinement (kismap.py 79-113) -/

/-- A record returned by a database read: a row of either table. -/
inductive DbRecord
  | dev (r : DeviceRow)
  | pkt (r : PacketRow)
  deriving DecidableEq

/-- The single query of the reimplementation: one read returning every
record of both tables, tagged by table. -/
def singleQuery (db : Db) : List DbRecord :=
  db.devices.map DbRecord.dev ++ db.packets.map DbRecord.pkt

/-- Device rows among the records of a single read. -/
def devPart (rs : List DbRecord) : List DeviceRow :=
  rs.filterMap (fun r => match r with | DbRecord.dev d => some d | _ => none)

/-- Packet rows among the records of a single read. -/
def pktPart (rs : List DbRecord) : List PacketRow :=
  rs.filterMap (fun r => match r with | DbRecord.pkt p => some p | _ => none)

/-- Reimplementation of the load phase that issues `singleQuery` as its
only database read and performs everything else client-side. -/
def load_single_read (db : Db) (args : Args) : List Packet :=
  let rows := singleQuery db
  load_kismet_data { devices := devPart rows, packets := pktPart rows } args

/-! ## Model of main (kismap.py 260-337) -/

/-- CLI arguments of `main` beyond the filter arguments. -/
structure MainArgs where
  input : String
  output : String
  filters : Args
  no_heatmap : Bool
  export_csv : Bool
  verbose : Bool

/-- Environment `main` runs in: whether folium imported successfully,
which paths exist, and the database behind the input path. -/
structure Env where
  foliumAvailable : Bool
  pathExists : String → Bool
  db : Db

/-- Observable outcome of a run of `main`. -/
structure MainResult where
  exitCode : Int
  errorPrinted : Bool
  dbOpened : Bool
  htmlWritten : Bool
  csvWritten : Bool
  deriving DecidableEq

/-- Model of `main` (kismap.py 287-337): the folium check, the input
existence check, then loading; `generate_heatmap` returns None exactly
when no packet passes the filters (kismap.py 157-159), in which case
nothing is saved. -/
def main (env : Env) (args : MainArgs) : MainResult :=
  if ¬ env.foliumAvailable then
    { exitCode := 1, errorPrinted := true, dbOpened := false,
      htmlWritten := false, csvWritten := false }
  else if ¬ env.pathExists args.input then
    { exitCode := 1, errorPrinted := true, dbOpened := false,
      htmlWritten := false, csvWritten := false }
  else
    let packets := load_kismet_data env.db args.filters
    if packets.isEmpty then
      { exitCode := 0, errorPrinted := false, dbOpened := true,
        htmlWritten := false, csvWritten := false }
    else
      { exitCode := 0, errorPrinted := false, dbOpened := true,
        htmlWritten := true, csvWritten := args.export_csv }

/-! ## CSV export (kismap.py 249-258) -/

/-- The apostrophe character, written by code point to keep the source
free of escaped quote literals. -/
def singleQuote : Char := Char.ofNat 39

/-- A character that is neither a comma nor a double quote. -/
def cleanChar (c : Char) : Prop := c ≠ ',' ∧ c ≠ '"'

instance (c : Char) : Decidable (cleanChar c) := by
  unfold cleanChar; infer_instance

/-- A string all of whose characters are clean. -/
def cleanStr (s : String) : Prop := ∀ c ∈ s.data, cleanChar c

instance (s : String) : Decidable (cleanStr s) := by
  unfold cleanStr; exact List.decidableBAll _ _

/-- Sanitization of the ssid (kismap.py 255): every comma becomes a
semicolon and every double quote becomes an apostrophe. -/
def sanitizeSsid (s : String) : String :=
  ⟨(s.data.map (fun c => if c = ',' then ';' else c)).map
    (fun c => if c = '"' then singleQuote else c)⟩

/-- Decimal rendering of an integer database value, as Python's string
formatting prints it. -/
def intStr (i : Int) : String := Int.repr i

/-- Rendering of a rational database value.  Python prints numbers using
digits, sign, point and exponent characters only; the model renders
numerator and denominator, likewise free of commas and quotes. -/
def ratStr (q : ℚ) : String :=
  intStr q.num ++ (if q.den = 1 then "" else "/" ++ Nat.repr q.den)

/-- One data row written by `export_csv` (kismap.py 256-257): the nine
fields separated by commas, with the sanitized ssid enclosed in double
quotes and a trailing newline. -/
def csvRow (p : Packet) : String :=
  intStr p.timestamp ++ "," ++ ratStr p.lat ++ "," ++ ratStr p.lon ++ "," ++
  intStr p.signal ++ "," ++ ratStr p.frequency ++ "," ++ p.band ++ "," ++
  p.mac ++ ",\"" ++ sanitizeSsid (p.ssid.getD ("")) ++ "\"," ++
  p.type.getD ("") ++ "\n"

/-- Field counter state machine: commas split fields only outside
double-quoted sections. -/
def csvFieldsAux : Bool → List Char → Nat
  | _, [] => 0
  | inQ, c :: cs =>
    if c = '"' then csvFieldsAux (!inQ) cs
    else if c = ',' ∧ inQ = false then 1 + csvFieldsAux inQ cs
    else csvFieldsAux inQ cs

/-- Number of fields of a CSV line when split on commas outside
double-quoted sections. -/
def csvFields (s : String) : Nat := 1 + csvFieldsAux false s.data

/-! ## Concrete fixtures for counterexamples and witnesses -/

/-- A packets-table row with coordinates, signal and a 2.4 GHz
frequency. -/
def c1row : PacketRow :=
  { lat := 1, lon := 1, signal := -50, frequency := 2412,
    sourcemac := "m", destmac := "d", ts_sec := 5 }

/-- A database with no devices and the single packet row `c1row`. -/
def c1db : Db := { devices := [], packets := [c1row] }

/-- Arguments corresponding to the invocation with min-signal 0 and no
other filters, showing all devices. -/
def c1args : Args :=
  { band := [], min_signal := 0, type := [], essid := [], mac := [],
    all_devices := false }

/-- Arguments with an active band filter and an active mac filter. -/
def c1wargs : Args :=
  { band := ["2.4"], min_signal := -100, type := [], essid := [], mac := ["m"],
    all_devices := false }

/-- A devices-table row whose stored type is the empty string. -/
def c9drow : DeviceRow :=
  { devmac := "m", type := some (""), strongest_signal := -40,
    avg_lat := 1, avg_lon := 1, device := none }

/-- A database pairing the empty-typed device with a packet from it. -/
def c9db : Db := { devices := [c9drow], packets := [c1row] }

/-- The default arguments: no filters, min-signal -100, APs only. -/
def c9args : Args :=
  { band := [], min_signal := -100, type := [], essid := [], mac := [],
    all_devices := false }

/-- An environment in which no path exists. -/
def c7env : Env :=
  { foliumAvailable := true, pathExists := fun _ => false, db := c1db }

/-- Main arguments naming a missing input file. -/
def c7args : MainArgs :=
  { input := "missing.kismet", output := "kismet_heatmap.html",
    filters := c1args, no_heatmap := false, export_csv := true,
    verbose := false }

/-- A devices-table row whose type contains both the AP substring and a
comma. -/
def c10drow : DeviceRow :=
  { devmac := "m", type := some ("AP,X"), strongest_signal := -40,
    avg_lat := 1, avg_lon := 1, device := none }

/-- A database pairing the comma-typed device with a packet from it. -/
def c10db : Db := { devices := [c10drow], packets := [c1row] }

/-- The packet record that `load_kismet_data` builds from `c1row` in
`c10db`. -/
def c10pkt : Packet :=
  { lat := 1, lon := 1, signal := -50, frequency := 2412, mac := "m",
    timestamp := 5, band := "2.4", ssid := none, type := some ("AP,X") }

/-- A devices-table row of an access point whose beaconed ssid contains
a comma and a double quote. -/
def c10wdrow : DeviceRow :=
  { devmac := "m", type := some ("Wi-Fi AP"), strongest_signal := -40,
    avg_lat := 1, avg_lon := 1,
    device := some { dot11_last_beaconed_ssid := some ("A,\"B") } }

/-- A database pairing that access point with a packet from it. -/
def c10wdb : Db := { devices := [c10wdrow], packets := [c1row] }

/-- The packet record that `load_kismet_data` builds from `c1row` in
`c10wdb`. -/
def c10wpkt : Packet :=
  { lat := 1, lon := 1, signal := -50, frequency := 2412, mac := "m",
    timestamp := 5, band := "2.4", ssid := some ("A,\"B"),
    type := some ("Wi-Fi AP") }

end Kismap

namespace Kismap

/-! ## Helper lemmas -/

/-- Unfolding of the filter chain into the six negated drop
conditions. -/
theorem keepPacket_eq_true_iff (args : Args) (p : Packet) :
    keepPacket args p = true ↔
      ¬(args.band ≠ [] ∧ p.band ∉ args.band) ∧
      ¬(args.min_signal ≠ 0 ∧ p.signal < args.min_signal) ∧
      ¬(args.type ≠ [] ∧ ¬ optMem p.type args.type) ∧
      ¬(args.essid ≠ [] ∧ ¬ optMem p.ssid args.essid) ∧
      ¬(args.mac ≠ [] ∧ p.mac ∉ args.mac) ∧
      ¬(¬ args.all_devices = true ∧ typeTruthy p.type ∧
          ¬ strContains (p.type.getD ("")) ("AP") = true) := by
  unfold keepPacket
  split_ifs with h1 h2 h3 h4 h5 h6 <;> simp_all

theorem devPart_map_dev (l : List DeviceRow) :
    devPart (l.map DbRecord.dev) = l := by
  induction l with
  | nil => rfl
  | cons a l ih => simpa [devPart, List.filterMap_cons] using ih

theorem devPart_map_pkt (l : List PacketRow) :
    devPart (l.map DbRecord.pkt) = [] := by
  induction l with
  | nil => rfl
  | cons a l ih => simp [devPart, List.filterMap_cons, ih]

theorem pktPart_map_dev (l : List DeviceRow) :
    pktPart (l.map DbRecord.dev) = [] := by
  induction l with
  | nil => rfl
  | cons a l ih => simp [pktPart, List.filterMap_cons, ih]

theorem pktPart_map_pkt (l : List PacketRow) :
    pktPart (l.map DbRecord.pkt) = l := by
  induction l with
  | nil => rfl
  | cons a l ih => simpa [pktPart, List.filterMap_cons] using ih

theorem devPart_append (l1 l2 : List DbRecord) :
    devPart (l1 ++ l2) = devPart l1 ++ devPart l2 :=
  List.filterMap_append l1 l2 _

theorem pktPart_append (l1 l2 : List DbRecord) :
    pktPart (l1 ++ l2) = pktPart l1 ++ pktPart l2 :=
  List.filterMap_append l1 l2 _

/-- Digit characters are neither commas nor quotes. -/
theorem digitChar_clean (n : Nat) : cleanChar (Nat.digitChar n) := by
  rcases Nat.lt_or_ge n 16 with h | h
  · interval_cases n <;> decide
  · have e0 : n ≠ 0 := by omega
    have e1 : n ≠ 1 := by omega
    have e2 : n ≠ 2 := by omega
    have e3 : n ≠ 3 := by omega
    have e4 : n ≠ 4 := by omega
    have e5 : n ≠ 5 := by omega
    have e6 : n ≠ 6 := by omega
    have e7 : n ≠ 7 := by omega
    have e8 : n ≠ 8 := by omega
    have e9 : n ≠ 9 := by omega
    have ea : n ≠ 10 := by omega
    have eb : n ≠ 11 := by omega
    have ec : n ≠ 12 := by omega
    have ed : n ≠ 13 := by omega
    have ee : n ≠ 14 := by omega
    have ef : n ≠ 15 := by omega
    have h0 : Nat.digitChar n = Char.ofNat 42 := by
      unfold Nat.digitChar
      simp [e0, e1, e2, e3, e4, e5, e6, e7, e8, e9, ea, eb, ec, ed, ee, ef]
    rw [h0]; decide

theorem toDigitsCore_clean (b : Nat) :
    ∀ (fuel n : Nat) (acc : List Char), (∀ c ∈ acc, cleanChar c) →
      ∀ c ∈ Nat.toDigitsCore b fuel n acc, cleanChar c := by
  intro fuel
  induction fuel with
  | zero => intro n acc hacc; simpa [Nat.toDigitsCore] using hacc
  | succ fuel ih =>
    intro n acc hacc c hc
    simp only [Nat.toDigitsCore] at hc
    have hcons : ∀ x ∈ Nat.digitChar (n % b) :: acc, cleanChar x := by
      intro x hx
      rcases List.mem_cons.mp hx with h | h
      · subst h; exact digitChar_clean _
      · exact hacc _ h
    by_cases hz : n / b = 0
    · rw [if_pos hz] at hc; exact hcons _ hc
    · rw [if_neg hz] at hc; exact ih _ _ hcons _ hc

theorem natRepr_clean (n : Nat) : ∀ c ∈ (Nat.repr n).data, cleanChar c := by
  intro c hc
  exact toDigitsCore_clean 10 _ _ _ (by simp) c hc

theorem intStr_clean (i : Int) : ∀ c ∈ (intStr i).data, cleanChar c := by
  intro c hc
  cases i with
  | ofNat m => exact natRepr_clean m c hc
  | negSucc m =>
    have hd : (intStr (Int.negSucc m)).data = '-' :: (Nat.repr (m + 1)).data := rfl
    rw [hd] at hc
    rcases List.mem_cons.mp hc with h | h
    · subst h; exact ⟨by decide, by decide⟩
    · exact natRepr_clean _ c h

theorem ratStr_clean (q : ℚ) : ∀ c ∈ (ratStr q).data, cleanChar c := by
  intro c hc
  unfold ratStr at hc
  rw [String.data_append] at hc
  rcases List.mem_append.mp hc with h | h
  · exact intStr_clean _ c h
  · split_ifs at h with hden
    · simp at h
    · rw [String.data_append] at h
      rcases List.mem_append.mp h with h2 | h2
      · have hs : ("/" : String).data = ['/'] := rfl
        rw [hs] at h2
        rcases List.mem_cons.mp h2 with h3 | h3
        · subst h3; exact ⟨by decide, by decide⟩
        · simp at h3
      · exact natRepr_clean _ c h2

/-- A clean segment contributes no field separators and leaves the
quote state unchanged. -/
theorem csvFieldsAux_clean_prepend (b : Bool) (l rest : List Char)
    (h : ∀ c ∈ l, cleanChar c) :
    csvFieldsAux b (l ++ rest) = csvFieldsAux b rest := by
  induction l with
  | nil => rfl
  | cons c cs ih =>
    have hc := h c (List.mem_cons_self c cs)
    have hcs : ∀ x ∈ cs, cleanChar x := fun x hx => h x (List.mem_cons_of_mem _ hx)
    simp only [List.cons_append, csvFieldsAux]
    rw [if_neg hc.2, if_neg (fun hand => hc.1 hand.1)]
    exact ih hcs

theorem csvFieldsAux_comma (rest : List Char) :
    csvFieldsAux false (',' :: rest) = 1 + csvFieldsAux false rest := by
  simp [csvFieldsAux]

theorem csvFieldsAux_quote (b : Bool) (rest : List Char) :
    csvFieldsAux b ('"' :: rest) = csvFieldsAux (!b) rest := by
  simp [csvFieldsAux]

/-- Field-separator count of a row with nine fields, the eighth
double-quoted, when every unquoted field is clean. -/
theorem csvFieldsAux_row (T LA LO SI FR BA MA SS TY : List Char)
    (hT : ∀ c ∈ T, cleanChar c) (hLA : ∀ c ∈ LA, cleanChar c)
    (hLO : ∀ c ∈ LO, cleanChar c) (hSI : ∀ c ∈ SI, cleanChar c)
    (hFR : ∀ c ∈ FR, cleanChar c) (hBA : ∀ c ∈ BA, cleanChar c)
    (hMA : ∀ c ∈ MA, cleanChar c) (hSS : ∀ c ∈ SS, cleanChar c)
    (hTY : ∀ c ∈ TY, cleanChar c) :
    csvFieldsAux false
      (T ++ ',' :: (LA ++ ',' :: (LO ++ ',' :: (SI ++ ',' :: (FR ++ ',' ::
        (BA ++ ',' :: (MA ++ ',' :: '"' ::
          (SS ++ '"' :: ',' :: (TY ++ ['\n']))))))))) = 8 := by
  rw [csvFieldsAux_clean_prepend _ _ _ hT, csvFieldsAux_comma,
      csvFieldsAux_clean_prepend _ _ _ hLA, csvFieldsAux_comma,
      csvFieldsAux_clean_prepend _ _ _ hLO, csvFieldsAux_comma,
      csvFieldsAux_clean_prepend _ _ _ hSI, csvFieldsAux_comma,
      csvFieldsAux_clean_prepend _ _ _ hFR, csvFieldsAux_comma,
      csvFieldsAux_clean_prepend _ _ _ hBA, csvFieldsAux_comma,
      csvFieldsAux_clean_prepend _ _ _ hMA, csvFieldsAux_comma,
      csvFieldsAux_quote]
  simp only [Bool.not_false]
  rw [csvFieldsAux_clean_prepend _ _ _ hSS, csvFieldsAux_quote]
  simp only [Bool.not_true]
  rw [csvFieldsAux_comma, csvFieldsAux_clean_prepend _ _ _ hTY,
      show csvFieldsAux false ['\n'] = 0 from by decide]

/-- Every loaded packet carries the band computed from its own
frequency. -/
theorem mem_load_band (db : Db) (args : Args) (p : Packet)
    (hp : p ∈ load_kismet_data db args) : p.band = get_band p.frequency := by
  have hmem := (List.mem_filter.mp hp).1
  obtain ⟨r, _, rfl⟩ := List.mem_map.mp hmem
  unfold mkPacket
  split <;> rfl

/-- The band classifier only ever returns one of the four labels. -/
theorem get_band_values (f : ℚ) :
    get_band f = "2.4" ∨ get_band f = "5" ∨ get_band f = "6" ∨
    get_band f = "unknown" := by
  unfold get_band
  by_cases h : f ≤ 0
  · simp [h]
  · simp only [if_neg h]
    generalize (if f > 100000 then f / 1000 else if f > 100 then f else f * 1000) = m
    split_ifs <;> simp

/-- The sanitized ssid contains neither comma nor double quote. -/
theorem sanitizeSsid_clean (s : String) :
    ∀ c ∈ (sanitizeSsid s).data, cleanChar c := by
  intro c hc
  simp only [sanitizeSsid, List.mem_map] at hc
  obtain ⟨b, ⟨a, ha, rfl⟩, rfl⟩ := hc
  constructor <;> split_ifs <;> simp_all [singleQuote, cleanChar]

/-- Character-list shape of a CSV data row. -/
theorem csvRow_data (p : Packet) :
    (csvRow p).data =
      (intStr p.timestamp).data ++ ',' :: ((ratStr p.lat).data ++ ',' ::
        ((ratStr p.lon).data ++ ',' :: ((intStr p.signal).data ++ ',' ::
          ((ratStr p.frequency).data ++ ',' :: (p.band.data ++ ',' ::
            (p.mac.data ++ ',' :: '"' ::
              ((sanitizeSsid (p.ssid.getD (""))).data ++ '"' :: ',' ::
                ((p.type.getD ("")).data ++ ['\n'])))))))) := by
  have hc : (",").data = [','] := rfl
  have hq : (",\"").data = [',', '"'] := rfl
  have hqc : ("\",").data = ['"', ','] := rfl
  have hn : ("\n").data = ['\n'] := rfl
  simp [csvRow, String.data_append, hc, hq, hqc, hn, List.append_assoc]

/-! ## Claim theorems -/

/-- C1 (amended): every packet record returned by `load_kismet_data`
satisfies all active filters, where the min-signal filter is active
exactly when the given threshold is nonzero — if band values are given
the packet's band is among them, if a nonzero min-signal is given the
signal is at least it, if type values are given the packet's type is
among them, if essid values are given the packet's ssid is among them,
and if mac values are given the packet's source mac is among them. -/
theorem filter_pipeline_sound (db : Db) (args : Args) (p : Packet)
    (hp : p ∈ load_kismet_data db args) :
    (args.band ≠ [] → p.band ∈ args.band) ∧
    (args.min_signal ≠ 0 → args.min_signal ≤ p.signal) ∧
    (args.type ≠ [] → optMem p.type args.type) ∧
    (args.essid ≠ [] → optMem p.ssid args.essid) ∧
    (args.mac ≠ [] → p.mac ∈ args.mac) := by
  have hkeep : keepPacket args p = true := (List.mem_filter.mp hp).2
  rw [keepPacket_eq_true_iff] at hkeep
  push_neg at hkeep
  obtain ⟨hb, hm, ht, he, hc, _⟩ := hkeep
  exact ⟨hb, hm, ht, he, hc⟩

/-- Witness for C1: on the database `c1db` with an active band filter
and an active mac filter, the loaded packet satisfies every active
filter. -/
theorem filter_pipeline_sound_witness :
    mkPacket c1db c1row ∈ load_kismet_data c1db c1wargs ∧
    ((c1wargs.band ≠ [] → (mkPacket c1db c1row).band ∈ c1wargs.band) ∧
     (c1wargs.min_signal ≠ 0 → c1wargs.min_signal ≤ (mkPacket c1db c1row).signal) ∧
     (c1wargs.type ≠ [] → optMem (mkPacket c1db c1row).type c1wargs.type) ∧
     (c1wargs.essid ≠ [] → optMem (mkPacket c1db c1row).ssid c1wargs.essid) ∧
     (c1wargs.mac ≠ [] → (mkPacket c1db c1row).mac ∈ c1wargs.mac)) := by
  have hmem : mkPacket c1db c1row ∈ load_kismet_data c1db c1wargs := by
    norm_num [load_kismet_data, packetRows, c1db, c1wargs, c1row,
      List.insertionSort, List.orderedInsert, keepPacket, mkPacket,
      lookupDevice, deviceRows, get_band, strContains, optMem, typeTruthy]
  exact ⟨hmem, filter_pipeline_sound c1db c1wargs _ hmem⟩

/-- Counterexample for C1 as stated: with min-signal given as 0 (falsy
in Python, so the filter is skipped), `load_kismet_data` returns a
packet whose signal is below the given minimum. -/
theorem min_signal_zero_counterexample :
    mkPacket c1db c1row ∈ load_kismet_data c1db c1args ∧
    ¬ (c1args.min_signal ≤ (mkPacket c1db c1row).signal) := by
  constructor
  · norm_num [load_kismet_data, packetRows, c1db, c1args, c1row,
      List.insertionSort, List.orderedInsert, keepPacket, mkPacket,
      lookupDevice, deviceRows, typeTruthy]
  · norm_num [mkPacket, c1args, c1row, lookupDevice, deviceRows, c1db]

/-- C2 (confirmed): `get_band` equals the claim's normalize-then-classify
description — frequencies at most 0 give the unknown label, and
otherwise the result is 2.4, 5 or 6 exactly when the value normalized to
MHz lies in the closed interval from 2400 to 2500, from 5150 to 5895, or
from 5925 to 7125 respectively, and unknown otherwise. -/
theorem get_band_characterization (f : ℚ) :
    get_band f =
      if f ≤ 0 then "unknown"
      else if 2400 ≤ normalizeFreq f ∧ normalizeFreq f ≤ 2500 then "2.4"
      else if 5150 ≤ normalizeFreq f ∧ normalizeFreq f ≤ 5895 then "5"
      else if 5925 ≤ normalizeFreq f ∧ normalizeFreq f ≤ 7125 then "6"
      else "unknown" := rfl

/-- C3 (confirmed): `signal_to_weight` is the linear normalization
between -95 and -30 dBm clamped below at 1/10 and above at 1, and its
value always lies in the closed interval from 1/10 to 1. -/
theorem signal_to_weight_spec (s : ℚ) :
    signal_to_weight s = max (1/10) (min 1 ((s - (-95)) / ((-30) - (-95)))) ∧
    1/10 ≤ signal_to_weight s ∧ signal_to_weight s ≤ 1 := by
  refine ⟨rfl, le_max_left _ _, ?_⟩
  unfold signal_to_weight
  exact max_le (by norm_num) (min_le_left _ _)

/-- C4 (confirmed): for every frequency strictly above 100 and at most
100000 (a MHz value), expressing the same frequency in kHz gives the
same band label. -/
theorem get_band_khz_invariant (f : ℚ) (h1 : 100 < f) (h2 : f ≤ 100000) :
    get_band (f * 1000) = get_band f := by
  have h0 : ¬ (f ≤ 0) := by linarith
  have h0' : ¬ (f * 1000 ≤ 0) := by nlinarith
  have hgt : f * 1000 > 100000 := by nlinarith
  have hng : ¬ (f > 100000) := by linarith
  have hcancel : f * 1000 / 1000 = f := by field_simp
  simp only [get_band, if_neg h0, if_neg h0', if_pos hgt, if_neg hng,
    if_pos h1, hcancel]

/-- Witness for C4 at the MHz frequency 2412. -/
theorem get_band_khz_invariant_witness :
    (100 : ℚ) < 2412 ∧ (2412 : ℚ) ≤ 100000 ∧
    get_band (2412 * 1000) = get_band 2412 :=
  ⟨by norm_num, by norm_num,
    get_band_khz_invariant 2412 (by norm_num) (by norm_num)⟩

/-- C5 (confirmed): the three core functions are deterministic — on
equal inputs, `get_band`, `signal_to_weight` and the per-record filter
predicate `keepPacket` produce equal outputs; as pure functions of their
arguments they touch no external state. -/
theorem core_functions_deterministic (f₁ f₂ s₁ s₂ : ℚ) (a₁ a₂ : Args)
    (p₁ p₂ : Packet) (hf : f₁ = f₂) (hs : s₁ = s₂) (ha : a₁ = a₂)
    (hp : p₁ = p₂) :
    get_band f₁ = get_band f₂ ∧ signal_to_weight s₁ = signal_to_weight s₂ ∧
    keepPacket a₁ p₁ = keepPacket a₂ p₂ := by
  subst hf; subst hs; subst ha; subst hp
  exact ⟨rfl, rfl, rfl⟩

/-- Witness for C5 at concrete equal inputs. -/
theorem core_functions_deterministic_witness :
    get_band 2412 = get_band 2412 ∧
    signal_to_weight (-50) = signal_to_weight (-50) ∧
    keepPacket c1args (mkPacket c1db c1row) =
      keepPacket c1args (mkPacket c1db c1row) :=
  core_functions_deterministic 2412 2412 (-50) (-50) c1args c1args _ _
    rfl rfl rfl rfl

/-- C6 (confirmed): the load phase is equivalent to a reimplementation
that issues a single query returning every record it uses — running the
pipeline on the device and packet rows recovered from the one tagged
read `singleQuery` yields exactly the packets of `load_kismet_data`. -/
theorem single_read_equivalent (db : Db) (args : Args) :
    load_single_read db args = load_kismet_data db args := by
  have hdev : devPart (singleQuery db) = db.devices := by
    unfold singleQuery
    rw [devPart_append, devPart_map_dev, devPart_map_pkt, List.append_nil]
  have hpkt : pktPart (singleQuery db) = db.packets := by
    unfold singleQuery
    rw [pktPart_append, pktPart_map_dev, pktPart_map_pkt, List.nil_append]
  show load_kismet_data
      { devices := devPart (singleQuery db), packets := pktPart (singleQuery db) }
      args = load_kismet_data db args
  rw [hdev, hpkt]

/-- C7 (confirmed): whenever the input path does not exist, `main`
prints an error and exits with status 1 without opening the database,
and neither the heatmap nor the CSV file is written. -/
theorem missing_input_exits_early (env : Env) (args : MainArgs)
    (h : env.pathExists args.input = false) :
    (main env args).exitCode = 1 ∧ (main env args).errorPrinted = true ∧
    (main env args).dbOpened = false ∧ (main env args).htmlWritten = false ∧
    (main env args).csvWritten = false := by
  unfold main
  by_cases hf : env.foliumAvailable = true <;> simp [hf, h]

/-- Witness for C7 in the environment where the input file is
missing. -/
theorem missing_input_exits_early_witness :
    c7env.pathExists c7args.input = false ∧
    (main c7env c7args).exitCode = 1 ∧
    (main c7env c7args).errorPrinted = true ∧
    (main c7env c7args).dbOpened = false ∧
    (main c7env c7args).htmlWritten = false ∧
    (main c7env c7args).csvWritten = false :=
  ⟨rfl, missing_input_exits_early c7env c7args rfl⟩

/-- C8 (confirmed): for every database and arguments, the packet list
returned by `load_kismet_data` is sorted by non-decreasing timestamp —
the ORDER BY order survives the filter pipeline, which only drops
records. -/
theorem load_sorted_by_timestamp (db : Db) (args : Args) :
    (load_kismet_data db args).Pairwise (fun a b => a.timestamp ≤ b.timestamp) := by
  haveI : IsTotal PacketRow (fun a b => a.ts_sec ≤ b.ts_sec) :=
    ⟨fun a b => le_total a.ts_sec b.ts_sec⟩
  haveI : IsTrans PacketRow (fun a b => a.ts_sec ≤ b.ts_sec) :=
    ⟨fun _ _ _ => le_trans⟩
  have hsorted : (packetRows db).Pairwise (fun a b => a.ts_sec ≤ b.ts_sec) :=
    List.sorted_insertionSort _ _
  have hmap : ((packetRows db).map (mkPacket db)).Pairwise
      (fun a b => a.timestamp ≤ b.timestamp) := by
    refine hsorted.map _ (fun a b h => ?_)
    have ta : (mkPacket db a).timestamp = a.ts_sec := by
      unfold mkPacket; split <;> rfl
    have tb : (mkPacket db b).timestamp = b.ts_sec := by
      unfold mkPacket; split <;> rfl
    rw [ta, tb]; exact h
  exact List.Pairwise.sublist (List.filter_sublist _) hmap

/-- C9 (amended): when all-devices is not given, every loaded packet
with a known non-empty device type has a type containing the AP
substring (so known non-empty non-AP types are excluded), and on a
packet whose type is unknown or recorded as the empty string the
AP-only default changes nothing: the filter verdict equals the one with
all-devices set. -/
theorem ap_default_filter (db : Db) (args : Args) (p : Packet)
    (hdev : args.all_devices = false) :
    (p ∈ load_kismet_data db args →
      ∀ t, p.type = some t → t ≠ "" → strContains t ("AP") = true) ∧
    ((p.type = none ∨ p.type = some ("")) →
      keepPacket args p = keepPacket { args with all_devices := true } p) := by
  constructor
  · intro hp t htype hne
    have hkeep : keepPacket args p = true := (List.mem_filter.mp hp).2
    rw [keepPacket_eq_true_iff] at hkeep
    push_neg at hkeep
    have h6 := hkeep.2.2.2.2.2
    have htt : typeTruthy p.type := by rw [htype]; exact hne
    have hres := h6 (by simp [hdev]) htt
    rwa [htype] at hres
  · intro htype
    have htt : ¬ typeTruthy p.type := by
      rcases htype with h | h <;> simp [h, typeTruthy]
    unfold keepPacket
    simp only [htt, false_and, and_false, if_neg, not_false_eq_true]

/-- Witness for C9: with the default arguments, on a packet with no
device entry the theorem applies. -/
theorem ap_default_filter_witness :
    c9args.all_devices = false ∧
    ((mkPacket c1db c1row ∈ load_kismet_data c1db c9args →
      ∀ t, (mkPacket c1db c1row).type = some t → t ≠ "" →
        strContains t ("AP") = true) ∧
    (((mkPacket c1db c1row).type = none ∨
        (mkPacket c1db c1row).type = some ("")) →
      keepPacket c9args (mkPacket c1db c1row) =
        keepPacket { c9args with all_devices := true } (mkPacket c1db c1row))) :=
  ⟨rfl, ap_default_filter c1db c9args (mkPacket c1db c1row) rfl⟩

/-- Counterexample for C9 as stated: a device whose recorded type is the
empty string — a known type not containing the AP substring — is falsy
in Python, so its packet is NOT excluded by the AP-only default. -/
theorem ap_default_counterexample :
    c9args.all_devices = false ∧
    mkPacket c9db c1row ∈ load_kismet_data c9db c9args ∧
    (mkPacket c9db c1row).type = some ("") ∧
    strContains ("") ("AP") = false := by
  refine ⟨rfl, ?_, ?_, by decide⟩
  · norm_num [load_kismet_data, packetRows, c9db, c9args, c1row,
      List.insertionSort, List.orderedInsert, keepPacket, mkPacket,
      lookupDevice, deviceRows, c9drow, mkDeviceInfo, extractSsid,
      typeTruthy, optMem]
  · norm_num [mkPacket, lookupDevice, deviceRows, c9db, c9drow, c1row,
      mkDeviceInfo, extractSsid]

/-- C10 (amended): for every loaded packet, the ssid field written by
the CSV export contains no comma and no double quote (commas become
semicolons and double quotes become apostrophes), and — provided the
packet's mac and type fields themselves contain no comma or double
quote — the emitted data row, split on commas outside the double-quoted
ssid field, has exactly the 9 columns of the header. -/
theorem csv_row_well_formed (db : Db) (args : Args) (p : Packet)
    (hp : p ∈ load_kismet_data db args)
    (hmac : cleanStr p.mac) (htype : cleanStr (p.type.getD (""))) :
    cleanStr (sanitizeSsid (p.ssid.getD (""))) ∧ csvFields (csvRow p) = 9 := by
  refine ⟨sanitizeSsid_clean _, ?_⟩
  have hband : ∀ c ∈ p.band.data, cleanChar c := by
    rw [mem_load_band db args p hp]
    rcases get_band_values p.frequency with h | h | h | h <;> rw [h] <;> decide
  unfold csvFields
  rw [csvRow_data p,
      csvFieldsAux_row _ _ _ _ _ _ _ _ _
        (intStr_clean _) (ratStr_clean _) (ratStr_clean _) (intStr_clean _)
        (ratStr_clean _) hband hmac (sanitizeSsid_clean _) htype]

/-- Witness for C10: an access point beaconing an ssid with a comma and
a double quote; its loaded packet has a clean mac and type, and its CSV
row has exactly 9 columns. -/
theorem csv_row_well_formed_witness :
    (mkPacket c10wdb c1row ∈ load_kismet_data c10wdb c9args) ∧
    cleanStr (mkPacket c10wdb c1row).mac ∧
    cleanStr ((mkPacket c10wdb c1row).type.getD ("")) ∧
    (cleanStr (sanitizeSsid ((mkPacket c10wdb c1row).ssid.getD (""))) ∧
      csvFields (csvRow (mkPacket c10wdb c1row)) = 9) := by
  have hpkt : mkPacket c10wdb c1row = c10wpkt := by
    norm_num [mkPacket, lookupDevice, deviceRows, c10wdb, c10wdrow, c1row,
      mkDeviceInfo, extractSsid, get_band, c10wpkt,
      (show ¬ ("A,\"B" : String) = "" by decide)]
  have hmem : mkPacket c10wdb c1row ∈ load_kismet_data c10wdb c9args := by
    norm_num [load_kismet_data, packetRows, c10wdb, c9args, c1row,
      List.insertionSort, List.orderedInsert, keepPacket, mkPacket,
      lookupDevice, deviceRows, c10wdrow, mkDeviceInfo, extractSsid,
      typeTruthy, optMem, strContains]
  have hmac : cleanStr (mkPacket c10wdb c1row).mac := by rw [hpkt]; decide
  have htype : cleanStr ((mkPacket c10wdb c1row).type.getD ("")) := by
    rw [hpkt]; decide
  exact ⟨hmem, hmac, htype,
    csv_row_well_formed c10wdb c9args (mkPacket c10wdb c1row) hmem hmac htype⟩

/-- Counterexample for C10 as stated: the type field is written to the
CSV unsanitized, so a loaded packet whose device type contains a comma
produces a data row with 10 columns instead of 9. -/
theorem csv_nine_columns_counterexample :
    mkPacket c10db c1row ∈ load_kismet_data c10db c9args ∧
    csvFields (csvRow (mkPacket c10db c1row)) ≠ 9 := by
  have hpkt : mkPacket c10db c1row = c10pkt := by
    norm_num [mkPacket, lookupDevice, deviceRows, c10db, c10drow, c1row,
      mkDeviceInfo, extractSsid, get_band, c10pkt]
  constructor
  · norm_num [load_kismet_data, packetRows, c10db, c9args, c1row,
      List.insertionSort, List.orderedInsert, keepPacket, mkPacket,
      lookupDevice, deviceRows, c10drow, mkDeviceInfo, extractSsid,
      typeTruthy, optMem, strContains]
  · rw [hpkt]
    decide

end Kismap
